import Mathlib

/-!
Verification of the dtp-investigator repository (src/app.py, src/app1.py).

The development shallowly embeds the parts of the two Python source files that
the specification talks about:

* the reply decoder of `analyze_situation` (direct `json.loads`, then the
  greedy regex fallback `re.search(r'({[\s\S]*})', text)` in src/app1.py,
  and the direct-only decoder of src/app.py);
* the credential-resolution chain `get_api_key` of src/app1.py;
* the `case_details` record built in `main` of both variants;
* the rendering and question-export logic of `display_interrogation_plan`
  and the result-rendering part of `main` in src/app1.py.

Python dictionaries, lists and scalars are modelled by the `Json` inductive
type; Python exceptions by explicit error results.
-/

/-- Model of a Python JSON value as produced by `json.loads`.  Numbers keep
their source lexeme (Python would convert to `int`/`float`; two equal lexemes
convert to equal Python numbers, which is all the claims need).  Objects keep
the parsed key/value list; lookups take the last binding for a key, matching
Python dict insertion semantics for duplicate keys. -/
inductive Json where
  | null
  | bool (b : Bool)
  | num (lexeme : String)
  | str (s : String)
  | arr (elems : List Json)
  | obj (fields : List (String × Json))
deriving Repr

/-- Left and right curly-brace characters. -/
def lbraceChar : Char := '\x7b'

def rbraceChar : Char := '\x7d'

/-- Last-wins lookup in an object's field list, matching the Python dict that
`json.loads` builds (a later duplicate key overwrites the earlier value). -/
def lookupField (fs : List (String × Json)) (k : String) : Option Json :=
  match fs with
  | [] => none
  | (k₀, v₀) :: rest =>
    match lookupField rest k with
    | some v => some v
    | none => if k₀ = k then some v₀ else none

/-- Field lookup on a `Json` value: `some` only for objects that bind `k`. -/
def Json.lookup : Json → String → Option Json
  | .obj fs, k => lookupField fs k
  | _, _ => none

/-- Lookup along a path of keys through nested objects. -/
def Json.lookupPath : Json → List String → Option Json
  | j, [] => some j
  | j, k :: ks =>
    match j.lookup k with
    | some v => v.lookupPath ks
    | none => none

/-- Python truthiness of a JSON value: `None`, `False`, numeric zero, empty
string, empty list and empty dict are falsy.  A numeric lexeme denotes zero
exactly when all its mantissa characters (before any exponent marker) are
drawn from sign, zero and the decimal point. -/
def Json.truthy : Json → Bool
  | .null => false
  | .bool b => b
  | .num lexeme =>
    !((lexeme.data.takeWhile (fun c => !(c == 'e') && !(c == 'E'))).all
      (fun c => c == '0' || c == '.' || c == '-'))
  | .str s => !s.isEmpty
  | .arr xs => !xs.isEmpty
  | .obj fs => !fs.isEmpty

/-- Python exception kinds raised by the dictionary/iteration operations the
rendering code uses. -/
inductive PyErr where
  | keyError (k : String)
  | typeError
  | attributeError
deriving Repr, DecidableEq

/-- Python `value[k]` subscription with a string key: objects yield the bound
value or `KeyError`; every other value raises `TypeError`. -/
def Json.getItem : Json → String → Except PyErr Json
  | .obj fs, k =>
    match lookupField fs k with
    | some v => .ok v
    | none => .error (.keyError k)
  | _, _ => .error .typeError

/-- Python `value.get(k, default)`: defined only on dictionaries; any other
value raises `AttributeError`. -/
def Json.dictGet : Json → String → Json → Except PyErr Json
  | .obj fs, k, d => .ok ((lookupField fs k).getD d)
  | _, _, _ => .error .attributeError

/-- First-occurrence deduplication of a key list (Python dict key order). -/
def dedupKeys : List String → List String
  | [] => []
  | k :: rest => if k ∈ rest then
      match dedupKeys rest with | r => if k ∈ r then r else k :: r
    else k :: dedupKeys rest

/-- Python `for x in value`: lists yield their elements, strings their
characters, dictionaries their keys; other values raise `TypeError`. -/
def Json.pyIter : Json → Except PyErr (List Json)
  | .arr xs => .ok xs
  | .str s => .ok (s.data.map (fun c => .str (String.mk [c])))
  | .obj fs => .ok ((dedupKeys (fs.map Prod.fst)).map Json.str)
  | _ => .error .typeError

mutual

/-- Python `repr` of a JSON value (approximate for floats and for string
escaping, exact on the shapes the claims exercise). -/
def Json.pyRepr : Json → String
  | .null => "None"
  | .bool b => if b then "True" else "False"
  | .num lexeme => lexeme
  | .str s => "\x27" ++ s ++ "\x27"
  | .arr xs => "[" ++ Json.pyReprArr xs ++ "]"
  | .obj fs => "\x7b" ++ Json.pyReprObj fs ++ "\x7d"

/-- Comma-separated reprs of list elements. -/
def Json.pyReprArr : List Json → String
  | [] => ""
  | [x] => Json.pyRepr x
  | x :: y :: rest => Json.pyRepr x ++ ", " ++ Json.pyReprArr (y :: rest)

/-- Comma-separated reprs of dict entries. -/
def Json.pyReprObj : List (String × Json) → String
  | [] => ""
  | [(k, v)] => "\x27" ++ k ++ "\x27: " ++ Json.pyRepr v
  | (k, v) :: x :: rest =>
    "\x27" ++ k ++ "\x27: " ++ Json.pyRepr v ++ ", " ++ Json.pyReprObj (x :: rest)

end

/-- Python `str()` as used by the f-strings in the source: identity on
strings, `repr`-like elsewhere. -/
def Json.pyStr : Json → String
  | .str s => s
  | v => v.pyRepr

/-! ## The JSON parser (model of Python `json.loads`)

`json.loads` accepts one JSON value surrounded by optional whitespace and
rejects anything else ("Extra data").  The grammar below follows the Python
`json` module: `0 | [1-9][0-9]*` integer parts, optional fraction and
exponent, the constants `NaN`, `Infinity` and `-Infinity`, string escapes
including `\uXXXX`, and a hard error on raw control characters in strings. -/

/-- Skip JSON whitespace (space, tab, newline, carriage return). -/
def skipWs : List Char → List Char
  | c :: rest =>
    if c == ' ' || c == '\t' || c == '\n' || c == '\r' then skipWs rest
    else c :: rest
  | [] => []

/-- Longest digit prefix of the input, and the rest. -/
def takeDigits : List Char → List Char × List Char
  | c :: rest =>
    if c.isDigit then
      match takeDigits rest with
      | (d, r) => (c :: d, r)
    else ([], c :: rest)
  | [] => ([], [])

/-- JSON integer part: `0` or a nonzero digit followed by digits. -/
def parseIntPart : List Char → Option (List Char × List Char)
  | '0' :: rest => some (['0'], rest)
  | c :: rest =>
    if c.isDigit then
      match takeDigits rest with
      | (d, r) => some (c :: d, r)
    else none
  | [] => none

/-- JSON number starting at the input, returning its lexeme and the rest. -/
def parseNumber (s : List Char) : Option (Json × List Char) :=
  let signAndRest : List Char × List Char :=
    match s with
    | '-' :: r => (['-'], r)
    | _ => ([], s)
  match parseIntPart signAndRest.2 with
  | none => none
  | some (ip, s₂) =>
    let fracAndRest : List Char × List Char :=
      match s₂ with
      | '.' :: r =>
        match takeDigits r with
        | ([], _) => ([], s₂)
        | (d, r₂) => ('.' :: d, r₂)
      | _ => ([], s₂)
    let s₃ := fracAndRest.2
    let expAndRest : List Char × List Char :=
      match s₃ with
      | e :: r =>
        if e == 'e' || e == 'E' then
          let signTail : List Char × List Char :=
            match r with
            | c :: rr => if c == '+' || c == '-' then ([c], rr) else ([], r)
            | [] => ([], r)
          match takeDigits signTail.2 with
          | ([], _) => ([], s₃)
          | (d, r₃) => (e :: (signTail.1 ++ d), r₃)
        else ([], s₃)
      | [] => ([], s₃)
    some (.num (String.mk (signAndRest.1 ++ ip ++ fracAndRest.1 ++ expAndRest.1)),
          expAndRest.2)

/-- Hex digit test. -/
def isHexDigitChar (c : Char) : Bool :=
  c.isDigit || ('a' ≤ c && c ≤ 'f') || ('A' ≤ c && c ≤ 'F')

/-- Hex digit value. -/
def hexVal (c : Char) : Nat :=
  if c.isDigit then c.toNat - 48
  else if 'a' ≤ c ∧ c ≤ 'f' then c.toNat - 87
  else c.toNat - 55

/-- Single-character string escapes accepted by JSON. -/
def escChar : Char → Option Char
  | '"' => some '"'
  | '\\' => some '\\'
  | '/' => some '/'
  | 'b' => some '\x08'
  | 'f' => some '\x0c'
  | 'n' => some '\n'
  | 'r' => some '\r'
  | 't' => some '\t'
  | _ => none

/-- Body of a JSON string after the opening quote: characters up to the
closing quote, processing escapes; raw control characters are rejected as in
Python's strict mode.  (`\uXXXX` denoting a surrogate is unrepresentable in a
Lean `Char` and maps to the null character; no claim exercises it.) -/
def parseStrBody : List Char → List Char → Option (String × List Char)
  | [], _ => none
  | '"' :: rest, acc => some (String.mk acc.reverse, rest)
  | '\\' :: 'u' :: h₁ :: h₂ :: h₃ :: h₄ :: rest, acc =>
    if isHexDigitChar h₁ && isHexDigitChar h₂ && isHexDigitChar h₃ && isHexDigitChar h₄ then
      parseStrBody rest
        (Char.ofNat (((hexVal h₁ * 16 + hexVal h₂) * 16 + hexVal h₃) * 16 + hexVal h₄) :: acc)
    else none
  | '\\' :: e :: rest, acc =>
    match escChar e with
    | some c => parseStrBody rest (c :: acc)
    | none => none
  | ['\\'], _ => none
  | c :: rest, acc =>
    if c.toNat < 32 then none else parseStrBody rest (c :: acc)
termination_by structural s _ => s

mutual

/-- One JSON value starting at the input (after skipping whitespace),
returning the value and the unconsumed rest.  The fuel bounds recursion
depth; `jsonParse` supplies enough for any input. -/
def parseVal : Nat → List Char → Option (Json × List Char)
  | 0, _ => none
  | Nat.succ fuel, s =>
    match skipWs s with
    | [] => none
    | '\x7b' :: rest =>
      match skipWs rest with
      | '\x7d' :: r₂ => some (.obj [], r₂)
      | _ => parseObjLoop fuel rest []
    | '[' :: rest =>
      match skipWs rest with
      | ']' :: r₂ => some (.arr [], r₂)
      | _ => parseArrLoop fuel rest []
    | '"' :: rest =>
      match parseStrBody rest [] with
      | some (str, r) => some (.str str, r)
      | none => none
    | 't' :: 'r' :: 'u' :: 'e' :: rest => some (.bool true, rest)
    | 'f' :: 'a' :: 'l' :: 's' :: 'e' :: rest => some (.bool false, rest)
    | 'n' :: 'u' :: 'l' :: 'l' :: rest => some (.null, rest)
    | 'N' :: 'a' :: 'N' :: rest => some (.num "NaN", rest)
    | 'I' :: 'n' :: 'f' :: 'i' :: 'n' :: 'i' :: 't' :: 'y' :: rest =>
      some (.num "Infinity", rest)
    | '-' :: 'I' :: 'n' :: 'f' :: 'i' :: 'n' :: 'i' :: 't' :: 'y' :: rest =>
      some (.num "-Infinity", rest)
    | c :: rest => parseNumber (c :: rest)
termination_by structural fuel _ => fuel

/-- Comma-separated array elements up to the closing bracket. -/
def parseArrLoop : Nat → List Char → List Json → Option (Json × List Char)
  | 0, _, _ => none
  | Nat.succ fuel, s, acc =>
    match parseVal fuel s with
    | none => none
    | some (v, r) =>
      match skipWs r with
      | ',' :: r₂ => parseArrLoop fuel r₂ (v :: acc)
      | ']' :: r₂ => some (.arr (v :: acc).reverse, r₂)
      | _ => none
termination_by structural fuel _ _ => fuel

/-- Comma-separated `"key": value` object entries up to the closing brace. -/
def parseObjLoop : Nat → List Char → List (String × Json) → Option (Json × List Char)
  | 0, _, _ => none
  | Nat.succ fuel, s, acc =>
    match skipWs s with
    | '"' :: rest =>
      match parseStrBody rest [] with
      | none => none
      | some (k, r) =>
        match skipWs r with
        | ':' :: r₂ =>
          match parseVal fuel r₂ with
          | none => none
          | some (v, r₃) =>
            match skipWs r₃ with
            | ',' :: r₄ => parseObjLoop fuel r₄ ((k, v) :: acc)
            | '\x7d' :: r₄ => some (.obj ((k, v) :: acc).reverse, r₄)
            | _ => none
        | _ => none
    | _ => none
termination_by structural fuel _ _ => fuel

end

/-- Model of Python `json.loads`: one JSON value, optionally surrounded by
whitespace; anything left over is an error ("Extra data"), returning `none`
like every other parse failure, which in the source surfaces as
`json.JSONDecodeError`. -/
def jsonParse (text : String) : Option Json :=
  match parseVal (2 * text.data.length + 4) text.data with
  | some (v, rest) => if (skipWs rest).isEmpty then some v else none
  | none => none

/-! ## The greedy brace extraction

`re.search(r'({[\s\S]*})', response_text)` matches at the position of the
first left brace, and the greedy star then stretches the match to the last
right brace of the whole text; a match exists exactly when some right brace
occurs after the first left brace. -/

/-- Index of the first character satisfying the predicate. -/
def idxOfFirst (pred : Char → Bool) : List Char → Option Nat
  | [] => none
  | c :: rest =>
    if pred c then some 0 else (idxOfFirst pred rest).map (· + 1)

/-- Index of the last character satisfying the predicate. -/
def idxOfLast (pred : Char → Bool) (s : List Char) : Option Nat :=
  (idxOfFirst pred s.reverse).map (fun i => s.length - 1 - i)

/-- Substring captured by `re.search(r'({[\s\S]*})', text)`: from the first
left brace through the last right brace, provided the latter comes later. -/
def extractBraced (s : List Char) : Option (List Char) :=
  match idxOfFirst (fun c => c == lbraceChar) s,
        idxOfLast (fun c => c == rbraceChar) s with
  | some i, some j =>
    if i < j then some ((s.drop i).take (j - i + 1)) else none
  | _, _ => none

/-- A left brace with some right brace after it occurs in the text (the
condition for the fallback regex to match at all). -/
def hasBracePair : List Char → Bool
  | [] => false
  | c :: rest => (c == lbraceChar && rest.contains rbraceChar) || hasBracePair rest

/-! ## The two reply decoders -/

/-- Outcome of the src/app1.py decoder (lines 133-153): a parsed document, or
one of the two `ValueError`s the function raises. -/
inductive DecodeResult where
  | ok (v : Json)
  /-- `ValueError("Не удалось найти JSON в ответе")`: the fallback regex found
  no brace-delimited substring. -/
  | errNoJson
  /-- `json.JSONDecodeError` from parsing the extracted substring, re-raised
  as `ValueError("Некорректный формат JSON в ответе API: ...")`. -/
  | errBadJson
deriving Repr

/-- The src/app1.py decoder: try `json.loads` on the whole reply; on failure
run the greedy brace extraction and parse the captured substring; with no
match raise the "no JSON found" error. -/
def decodeResponse (text : String) : DecodeResult :=
  match jsonParse text with
  | some v => .ok v
  | none =>
    match extractBraced text.data with
    | some sub =>
      match jsonParse (String.mk sub) with
      | some v => .ok v
      | none => .errBadJson
    | none => .errNoJson

/-- The src/app.py decoder (line 44): `json.loads` on the whole reply text,
with no fallback; `none` models the uncaught `json.JSONDecodeError`. -/
def decodeResponseApp (text : String) : Option Json :=
  jsonParse text

/-! ## Credential resolution (src/app1.py, `get_api_key`) -/

/-- Python truthiness of an optional string: `None` and `""` are falsy, which
is what `a or b` and `if not api_key` test in the source. -/
def pyTruthyStr : Option String → Bool
  | none => false
  | some s => !s.isEmpty

/-- Python `a or b` on optional strings: `a` if truthy, otherwise `b`
(returning `b`'s value even when `b` is falsy). -/
def orPy (a b : Option String) : Option String :=
  if pyTruthyStr a then a else b

/-- The credential sources visible to `get_api_key` during one script run:
the process environment variable, the Streamlit secrets store, the
`st.session_state` entry (absent, or present with a possibly-`None` value),
and the value the API-key text-input widget returns when rendered. -/
structure CredSources where
  envKey : Option String
  secretsKey : Option String
  sessionState : Option (Option String)
  promptInput : String

namespace App1

/-- Value of `st.session_state.get('ANTHROPIC_API_KEY', None)`. -/
def cachedKey (s : CredSources) : Option String :=
  match s.sessionState with
  | none => none
  | some v => v

/-- Model of src/app1.py lines 15-35: chain the three sources with Python
`or`; if the result is falsy, fall back to the session entry, creating it
from the text-input widget when absent. -/
def get_api_key (s : CredSources) : Option String :=
  let api_key := orPy s.envKey (orPy s.secretsKey (cachedKey s))
  if pyTruthyStr api_key then api_key
  else
    match s.sessionState with
    | none => some s.promptInput
    | some v => v

/-- Outcome of one `analyze_situation` call in src/app1.py: `st.stop()` after
the missing-key error (before the client is even constructed), or one backend
request whose reply goes through the decoder. -/
inductive AnalyzeOutcome where
  | missingCredential
  | completed (r : DecodeResult)
deriving Repr

/-- Model of src/app1.py lines 37-166 with the backend reply supplied as an
oracle: resolve the credential, stop when it is falsy, otherwise issue the
single request and decode the reply text. -/
def analyze_situation (creds : CredSources) (backendReply : String) : AnalyzeOutcome :=
  if pyTruthyStr (get_api_key creds) then .completed (decodeResponse backendReply)
  else .missingCredential

/-- Number of backend requests the call issues. -/
def requestsIssued : AnalyzeOutcome → Nat
  | .missingCredential => 0
  | .completed _ => 1

/-- The `case_details` dictionary built in `main` of src/app1.py
(lines 385-409): each participant entry pairs its `present` flag with the
collected details dict when present and `None` otherwise. -/
def buildCaseDetails (dateTime location incidentType : String)
    (vehiclePresent victimPresent driverPresent : Bool)
    (vehicleDetails victimDetails driverDetails : Json)
    (weather road lighting : String) : Json :=
  .obj
    [("date_time", .str dateTime),
     ("location", .str location),
     ("incident_type", .str incidentType),
     ("participants", .obj
       [("vehicle", .obj
          [("present", .bool vehiclePresent),
           ("details", if vehiclePresent then vehicleDetails else .null)]),
        ("victim", .obj
          [("present", .bool victimPresent),
           ("details", if victimPresent then victimDetails else .null)]),
        ("driver", .obj
          [("present", .bool driverPresent),
           ("details", if driverPresent then driverDetails else .null)])]),
     ("conditions", .obj
       [("weather", .str weather),
        ("road", .str road),
        ("lighting", .str lighting)])]

/-! ### Rendering (src/app1.py, `display_interrogation_plan` and `main`)

Both the on-screen rendering and the export button repeat one pattern per
question category: `if group.get(key): emit header; for q in group[key]:
emit "• q"`.  `collectCats` captures that pattern once and is instantiated
with the per-role `(key, header)` tables written out in the source. -/

/-- One pass of the per-category pattern over a `(key, header)` table,
collecting the emitted lines. -/
def collectCats (group : Json) : List (String × String) → Except PyErr (List String)
  | [] => .ok []
  | (k, h) :: rest =>
    match Json.dictGet group k Json.null with
    | .error e => .error e
    | .ok v =>
      if v.truthy then
        match Json.getItem group k with
        | .error e => .error e
        | .ok w =>
          match Json.pyIter w with
          | .error e => .error e
          | .ok xs =>
            match collectCats group rest with
            | .error e => .error e
            | .ok tail => .ok ((h :: xs.map (fun q => "• " ++ q.pyStr)) ++ tail)
      else
        match collectCats group rest with
        | .error e => .error e
        | .ok tail => .ok tail

/-- Witness categories and subheaders of the on-screen block (lines 183-196). -/
def displayWitnessCats : List (String × String) :=
  [("general", "Общие вопросы"),
   ("specific", "Специфические вопросы"),
   ("technical", "Технические аспекты")]

/-- Driver categories and subheaders of the on-screen block (lines 202-220). -/
def displayDriverCats : List (String × String) :=
  [("pre_incident", "События до ДТП"),
   ("incident", "О происшествии"),
   ("post_incident", "После происшествия"),
   ("technical", "Техническое состояние ТС")]

/-- Victim categories and subheaders of the on-screen block (lines 226-239). -/
def displayVictimCats : List (String × String) :=
  [("pre_incident", "События до ДТП"),
   ("incident", "О происшествии"),
   ("health", "Состояние здоровья")]

/-- Witness categories and headers of the export block (lines 247-255). -/
def exportWitnessCats : List (String × String) :=
  [("general", "\nОбщие вопросы:"),
   ("specific", "\nСпецифические вопросы:"),
   ("technical", "\nТехнические аспекты:")]

/-- Driver categories and headers of the export block (lines 259-270). -/
def exportDriverCats : List (String × String) :=
  [("pre_incident", "\nСобытия до ДТП:"),
   ("incident", "\nО происшествии:"),
   ("post_incident", "\nПосле происшествия:"),
   ("technical", "\nТехническое состояние ТС:")]

/-- Victim categories and headers of the export block (lines 274-282). -/
def exportVictimCats : List (String × String) :=
  [("pre_incident", "\nСобытия до ДТП:"),
   ("incident", "\nО происшествии:"),
   ("health", "\nСостояние здоровья:")]

/-- Python-style `sep.join(parts)`. -/
def joinSep (sep : String) : List String → String
  | [] => ""
  | [x] => x
  | x :: y :: rest => x ++ sep ++ joinSep sep (y :: rest)

/-- One role block of the export (lines 245-282): when the group dict is
truthy, its banner line followed by the per-category lines. -/
def exportGroup (group : Json) (banner : String) (cats : List (String × String)) :
    Except PyErr (List String) :=
  if group.truthy then
    match collectCats group cats with
    | .error e => .error e
    | .ok qs => .ok (banner :: qs)
  else .ok []

/-- The exported plain-text document (lines 242-284): the three role blocks
concatenated and joined with newlines. -/
def exportAllQuestions (wq dq vq : Json) : Except PyErr String :=
  match exportGroup wq "\n=== ВОПРОСЫ ДЛЯ СВИДЕТЕЛЕЙ ===\n" exportWitnessCats with
  | .error e => .error e
  | .ok a =>
    match exportGroup dq "\n=== ВОПРОСЫ ДЛЯ ВОДИТЕЛЯ ===\n" exportDriverCats with
    | .error e => .error e
    | .ok b =>
      match exportGroup vq "\n=== ВОПРОСЫ ДЛЯ ПОТЕРПЕВШЕГО ===\n" exportVictimCats with
      | .error e => .error e
      | .ok c => .ok (joinSep "\n" (a ++ b ++ c))

/-- Model of `display_interrogation_plan` (lines 172-290).  The collected
strings stand for the emitted headers, subheaders and bullet lines; the
export-button state is a parameter, and a pressed button appends the
downloadable text as one final item. -/
def display_interrogation_plan (analysis : Json) (exportClicked : Bool) :
    Except PyErr (List String) :=
  match Json.dictGet analysis "interrogation_plan" (.obj []) with
  | .error e => .error e
  | .ok ip =>
    match Json.dictGet ip "witness_questions" (.obj []) with
    | .error e => .error e
    | .ok wq =>
      match collectCats wq displayWitnessCats with
      | .error e => .error e
      | .ok wItems =>
        match Json.dictGet ip "driver_questions" (.obj []) with
        | .error e => .error e
        | .ok dq =>
          match (if dq.truthy then collectCats dq displayDriverCats
                 else (.ok [] : Except PyErr (List String))) with
          | .error e => .error e
          | .ok dItems =>
            match Json.dictGet ip "victim_questions" (.obj []) with
            | .error e => .error e
            | .ok vq =>
              match (if vq.truthy then collectCats vq displayVictimCats
                     else (.ok [] : Except PyErr (List String))) with
              | .error e => .error e
              | .ok vItems =>
                match (if exportClicked then
                        match exportAllQuestions wq dq vq with
                        | .error e => .error e
                        | .ok text => .ok [text]
                       else (.ok [] : Except PyErr (List String))) with
                | .error e => .error e
                | .ok exported =>
                  .ok (["4. План допросов", "📝 Вопросы для свидетелей"] ++ wItems
                        ++ (if dq.truthy then ["🚗 Вопросы для водителя"] else [])
                        ++ dItems
                        ++ (if vq.truthy then ["🤕 Вопросы для потерпевшего"] else [])
                        ++ vItems ++ exported)

/-- The result-rendering block of `main` (lines 417-440): mandatory
subscripts for `situation_type`, `primary_actions` and
`required_examinations`, then the interrogation plan, then the optional
special recommendations guarded by `analysis.get(...)`. -/
def renderResults (analysis : Json) (exportClicked : Bool) :
    Except PyErr (List String) :=
  match Json.getItem analysis "situation_type" with
  | .error e => .error e
  | .ok stype =>
    match Json.getItem analysis "primary_actions" with
    | .error e => .error e
    | .ok pa =>
      match Json.pyIter pa with
      | .error e => .error e
      | .ok actions =>
        match Json.getItem analysis "required_examinations" with
        | .error e => .error e
        | .ok re₀ =>
          match Json.pyIter re₀ with
          | .error e => .error e
          | .ok exams =>
            match display_interrogation_plan analysis exportClicked with
            | .error e => .error e
            | .ok planItems =>
              match Json.dictGet analysis "special_recommendations" Json.null with
              | .error e => .error e
              | .ok recs =>
                match (if recs.truthy then
                        match Json.getItem analysis "special_recommendations" with
                        | .error e => .error e
                        | .ok r =>
                          match Json.pyIter r with
                          | .error e => .error e
                          | .ok xs =>
                            .ok ("💡 Особые рекомендации"
                                  :: xs.map (fun x => "- " ++ x.pyStr))
                       else (.ok [] : Except PyErr (List String))) with
                | .error e => .error e
                | .ok recItems =>
                  .ok (["3. План расследования", "Тип ситуации", stype.pyStr,
                        "🎯 Первоочередные действия"]
                        ++ actions.map (fun a => a.pyStr)
                        ++ ["🔍 Необходимые экспертизы"]
                        ++ exams.map (fun x => "- " ++ x.pyStr)
                        ++ planItems ++ recItems)

end App1

/-! ## The src/app.py variant -/

namespace App

/-- Observable steps of `analyze_situation` in src/app.py, in order of
execution. -/
inductive Effect where
  | secretsLookup
  | constructClient
  | networkRequest
deriving Repr, DecidableEq

/-- Model of src/app.py lines 10-44.  The file begins with `import anthropic`,
so the name `anthropic` denotes the module object; line 14 then evaluates
`st.secrets["ANTHROPIC_API_KEY"]` (a `KeyError` when the secret is absent)
and calls `anthropic(api_key=...)`.  Calling a module object raises
`TypeError` in Python, so execution never reaches the
`client.messages.create` request on line 36.  The result pairs the effects
that actually ran with the exception raised. -/
def analyze_situation (secretsKey : Option String) : List Effect × Option PyErr :=
  match secretsKey with
  | none => ([.secretsLookup], some (.keyError "ANTHROPIC_API_KEY"))
  | some _ => ([.secretsLookup, .constructClient], some .typeError)

/-- The `case_details` dictionary built in `main` of src/app.py
(lines 121-147): the vehicle entry carries a `details` dict or `None`, while
the victim and driver entries carry only `present` and `condition` fields and
never a `details` key at all. -/
def buildCaseDetails (dateTime location incidentType : String)
    (vehiclePresent victimPresent driverPresent : Bool)
    (vehicleType vehicleDamage victimCondition driverCondition : String)
    (weather road lighting : String) : Json :=
  .obj
    [("date_time", .str dateTime),
     ("location", .str location),
     ("incident_type", .str incidentType),
     ("participants", .obj
       [("vehicle", .obj
          [("present", .bool vehiclePresent),
           ("details", if vehiclePresent then
              .obj [("type", .str vehicleType), ("damage", .str vehicleDamage)]
            else .null)]),
        ("victim", .obj
          [("present", .bool victimPresent),
           ("condition", if victimPresent then .str victimCondition else .null)]),
        ("driver", .obj
          [("present", .bool driverPresent),
           ("condition", if driverPresent then .str driverCondition else .null)])]),
     ("conditions", .obj
       [("weather", .str weather),
        ("road", .str road),
        ("lighting", .str lighting)])]

end App

/-! ## Auxiliary predicates used in claim statements -/

/-- The string contains no curly-brace characters at all. -/
def noBraces (s : String) : Bool :=
  s.data.all (fun c => !(c == lbraceChar) && !(c == rbraceChar))

/-- Brace-matching scan: current nesting depth, `none` on an unmatched
closing brace. -/
def braceDepth : List Char → Nat → Option Nat
  | [], d => some d
  | c :: rest, d =>
    if c == lbraceChar then braceDepth rest (d + 1)
    else if c == rbraceChar then
      match d with
      | 0 => none
      | Nat.succ d₀ => braceDepth rest d₀
    else braceDepth rest d

/-- The string contains no unmatched braces: every closing brace matches an
open one and every opened brace is closed. -/
def balancedBraces (s : String) : Bool :=
  braceDepth s.data 0 == some 0

/-- Python `needle in hay` on character lists: the needle occurs as a
contiguous segment. -/
def containsSeg (needle : List Char) : List Char → Bool
  | [] => needle.isPrefixOf []
  | c :: t => if needle.isPrefixOf (c :: t) then true else containsSeg needle t

/-! # Claims -/

/-- Claim C4: for every backend reply text `R` that is itself valid JSON, the
decoder of src/app1.py returns `parse(R)` unchanged: the direct whole-text
parse is attempted first and its result is returned. -/
theorem c4_direct_parse_first (R : String) (v : Json)
    (h : jsonParse R = some v) : decodeResponse R = .ok v := by
  unfold decodeResponse
  rw [h]

/-- Witness for C4 at the concrete reply `"[1]"`. -/
theorem c4_direct_parse_first_witness :
    jsonParse "[1]" = some (.arr [.num "1"]) ∧
    decodeResponse "[1]" = .ok (.arr [.num "1"]) :=
  ⟨rfl, c4_direct_parse_first "[1]" (.arr [.num "1"]) rfl⟩

/-- Claim C7: the literal reply `Here is the plan: {...} Thanks.` fails the
direct parse and the fallback recovers exactly the inner document. -/
theorem c7_literal_reply_via_fallback :
    jsonParse "Here is the plan: \x7b\"situation_type\":\"A\",\"primary_actions\":[],\"required_examinations\":[]\x7d Thanks." = none ∧
    decodeResponse "Here is the plan: \x7b\"situation_type\":\"A\",\"primary_actions\":[],\"required_examinations\":[]\x7d Thanks."
      = .ok (.obj [("situation_type", .str "A"), ("primary_actions", .arr []),
                   ("required_examinations", .arr [])]) :=
  ⟨rfl, rfl⟩

/-- Claim C2: credential resolution tries the environment variable, the
secrets store and the cached session value in that order, first non-empty
wins; when every source is empty (and the freshly rendered prompt is still
empty, as it is during the submission run), the call stops with the
missing-credential outcome and issues zero backend requests. -/
theorem c2_credential_resolution :
    (∀ s : CredSources, pyTruthyStr s.envKey = true →
      App1.get_api_key s = s.envKey) ∧
    (∀ s : CredSources, pyTruthyStr s.envKey = false →
      pyTruthyStr s.secretsKey = true → App1.get_api_key s = s.secretsKey) ∧
    (∀ s : CredSources, pyTruthyStr s.envKey = false →
      pyTruthyStr s.secretsKey = false → pyTruthyStr (App1.cachedKey s) = true →
      App1.get_api_key s = App1.cachedKey s) ∧
    (∀ (s : CredSources) (reply : String), pyTruthyStr s.envKey = false →
      pyTruthyStr s.secretsKey = false → pyTruthyStr (App1.cachedKey s) = false →
      s.promptInput = "" →
      App1.analyze_situation s reply = .missingCredential ∧
      App1.requestsIssued (App1.analyze_situation s reply) = 0) := by
  refine ⟨?_, ?_, ?_, ?_⟩
  · intro s h
    simp [App1.get_api_key, orPy, h]
  · intro s h₁ h₂
    simp [App1.get_api_key, orPy, h₁, h₂]
  · intro s h₁ h₂ h₃
    simp [App1.get_api_key, orPy, h₁, h₂, h₃]
  · intro s reply h₁ h₂ h₃ h₄
    obtain ⟨env, sec, ss, pi⟩ := s
    have hk : pyTruthyStr (App1.get_api_key ⟨env, sec, ss, pi⟩) = false := by
      cases ss with
      | none =>
        have hpi : pi = "" := h₄
        subst hpi
        simp only [App1.get_api_key, App1.cachedKey, orPy, h₁, h₂]
        rfl
      | some v =>
        simp only [App1.cachedKey] at h₃
        simp only [App1.get_api_key, App1.cachedKey, orPy, h₁, h₂]
        show pyTruthyStr (if pyTruthyStr v = true then v else v) = false
        rw [ite_self]
        exact h₃
    constructor
    · simp [App1.analyze_situation, hk]
    · simp [App1.analyze_situation, hk, App1.requestsIssued]

/-- Witness for C2: all three sources present-but-empty or absent, prompt
empty, at a concrete reply. -/
theorem c2_credential_resolution_witness :
    App1.get_api_key ⟨some "k₁", some "k₂", none, ""⟩ = some "k₁" ∧
    App1.analyze_situation ⟨none, some "", some (some ""), ""⟩ "x" = .missingCredential ∧
    App1.requestsIssued (App1.analyze_situation ⟨none, some "", some (some ""), ""⟩ "x") = 0 :=
  ⟨c2_credential_resolution.1 ⟨some "k₁", some "k₂", none, ""⟩ rfl,
   (c2_credential_resolution.2.2.2 ⟨none, some "", some (some ""), ""⟩ "x" rfl rfl rfl rfl).1,
   (c2_credential_resolution.2.2.2 ⟨none, some "", some (some ""), ""⟩ "x" rfl rfl rfl rfl).2⟩

/-- Claim C5: in both variants, a participant with `present = false` never
carries a populated `details` object in the serialized record: src/app1.py
serializes `details` as `None` for all three participants, and src/app.py
serializes `details` as `None` for the vehicle and has no `details` key at
all for victim and driver. -/
theorem c5_absent_participant_details :
    (∀ (dt loc it : String) (vp vicp dp : Bool) (vd vicd dd : Json)
        (w r li : String),
      (vp = false →
        (App1.buildCaseDetails dt loc it vp vicp dp vd vicd dd w r li).lookupPath
          ["participants", "vehicle", "details"] = some .null) ∧
      (vicp = false →
        (App1.buildCaseDetails dt loc it vp vicp dp vd vicd dd w r li).lookupPath
          ["participants", "victim", "details"] = some .null) ∧
      (dp = false →
        (App1.buildCaseDetails dt loc it vp vicp dp vd vicd dd w r li).lookupPath
          ["participants", "driver", "details"] = some .null)) ∧
    (∀ (dt loc it : String) (vp vicp dp : Bool) (vt vdmg vc dc w r li : String),
      (vp = false →
        (App.buildCaseDetails dt loc it vp vicp dp vt vdmg vc dc w r li).lookupPath
          ["participants", "vehicle", "details"] = some .null) ∧
      (App.buildCaseDetails dt loc it vp vicp dp vt vdmg vc dc w r li).lookupPath
          ["participants", "victim", "details"] = none ∧
      (App.buildCaseDetails dt loc it vp vicp dp vt vdmg vc dc w r li).lookupPath
          ["participants", "driver", "details"] = none) := by
  constructor
  · intro dt loc it vp vicp dp vd vicd dd w r li
    refine ⟨?_, ?_, ?_⟩ <;> (intro h; subst h; rfl)
  · intro dt loc it vp vicp dp vt vdmg vc dc w r li
    refine ⟨?_, rfl, rfl⟩
    intro h; subst h; rfl

/-- Witness for C5 at a fully concrete record with all participants absent. -/
theorem c5_absent_participant_details_witness :
    (App1.buildCaseDetails "d" "l" "t" false false false .null .null .null
        "w" "r" "g").lookupPath ["participants", "vehicle", "details"] = some .null ∧
    (App1.buildCaseDetails "d" "l" "t" false false false .null .null .null
        "w" "r" "g").lookupPath ["participants", "victim", "details"] = some .null ∧
    (App1.buildCaseDetails "d" "l" "t" false false false .null .null .null
        "w" "r" "g").lookupPath ["participants", "driver", "details"] = some .null ∧
    (App.buildCaseDetails "d" "l" "t" false false false "a" "b" "c" "e"
        "w" "r" "g").lookupPath ["participants", "vehicle", "details"] = some .null :=
  ⟨(c5_absent_participant_details.1 "d" "l" "t" false false false .null .null .null
      "w" "r" "g").1 rfl,
   (c5_absent_participant_details.1 "d" "l" "t" false false false .null .null .null
      "w" "r" "g").2.1 rfl,
   (c5_absent_participant_details.1 "d" "l" "t" false false false .null .null .null
      "w" "r" "g").2.2 rfl,
   (c5_absent_participant_details.2 "d" "l" "t" false false false "a" "b" "c" "e"
      "w" "r" "g").1 rfl⟩

/-- Claim C9: in src/app.py, `analyze_situation` raises before any network
request for every input, because line 14 calls the imported `anthropic`
module object itself; no execution reaches the backend request. -/
theorem c9_app_variant_never_requests :
    ∀ k : Option String, (App.analyze_situation k).2.isSome = true ∧
      App.Effect.networkRequest ∉ (App.analyze_situation k).1 := by
  intro k
  cases k <;> simp [App.analyze_situation]

/-- Counterexample to claim C6 as stated: rendering a decoded plan that
lacks `situation_type` fails with a missing-key error, so the rendering step
does not treat every field as optional. -/
theorem c6_counterexample_missing_key :
    App1.renderResults (.obj []) false = .error (.keyError "situation_type") :=
  rfl

/-- Claim C6 as amended: only the interrogation-plan block and the
special-recommendations block treat their fields as optional and skip absent
ones silently; the top-level `situation_type`, `primary_actions` and
`required_examinations` are mandatory subscripts, and rendering fails with a
missing-key error when `situation_type` is absent. -/
theorem c6_amended_optional_sections :
    (∀ (s : String) (pas exams : List Json) (flag : Bool),
      ∃ out, App1.renderResults
          (.obj [("situation_type", .str s), ("primary_actions", .arr pas),
                 ("required_examinations", .arr exams)]) flag = .ok out) ∧
    App1.renderResults (.obj []) false = .error (.keyError "situation_type") := by
  constructor
  · intro s pas exams flag
    cases flag
    · exact ⟨_, rfl⟩
    · exact ⟨_, rfl⟩
  · rfl

/-- Counterexample to claim C1 as stated: with `prefix = "{}"` (balanced, no
unmatched braces) and the valid document `{"a":1}`, the greedy fallback
captures `{}{"a":1}`, which is not valid JSON, so the decoder fails instead
of recovering the inner document. -/
theorem c1_counterexample_balanced_prefix :
    balancedBraces "\x7b\x7d" = true ∧
    balancedBraces "" = true ∧
    jsonParse "\x7b\"a\":1\x7d" = some (.obj [("a", .num "1")]) ∧
    jsonParse ("\x7b\x7d" ++ "\x7b\"a\":1\x7d" ++ "") = none ∧
    decodeResponse ("\x7b\x7d" ++ "\x7b\"a\":1\x7d" ++ "") = .errBadJson :=
  ⟨rfl, rfl, rfl, rfl, rfl⟩

/-- Counterexample to claim C3 as stated: the reply `"[]"` contains no
brace-delimited substring, yet decoding succeeds with the parsed array
instead of failing, because the whole text is valid JSON. -/
theorem c3_counterexample_braceless_json :
    hasBracePair "[]".data = false ∧ decodeResponse "[]" = .ok (.arr []) :=
  ⟨rfl, rfl⟩

/-- Counterexample to claim C10 as stated: a reply that is not wholly valid
JSON and contains the valid brace-delimited substring `{"a":1}`, on which the
src/app1.py decoder nevertheless fails (the greedy capture spans through the
trailing invalid object), so app1 does not recover a valid substring for
every such reply. -/
theorem c10_counterexample_greedy_failure :
    jsonParse "\x7b\"a\":1\x7d \x7b\"b\":\x7d" = none ∧
    containsSeg "\x7b\"a\":1\x7d".data "\x7b\"a\":1\x7d \x7b\"b\":\x7d".data = true ∧
    jsonParse "\x7b\"a\":1\x7d" = some (.obj [("a", .num "1")]) ∧
    decodeResponse "\x7b\"a\":1\x7d \x7b\"b\":\x7d" = .errBadJson :=
  ⟨rfl, rfl, rfl, rfl⟩

/-- Claim C10 as amended: src/app.py raises for every reply that is not
wholly valid JSON; both decoders return the direct parse on wholly-valid
replies; and the decoders are not equivalent, witnessed by a reply with
surrounding prose that only src/app1.py decodes. -/
theorem c10_amended_decoder_refinement :
    (∀ R : String, jsonParse R = none → decodeResponseApp R = none) ∧
    (∀ (R : String) (v : Json), jsonParse R = some v →
      decodeResponseApp R = some v ∧ decodeResponse R = .ok v) ∧
    (decodeResponseApp ("reply: " ++ "\x7b\"a\":1\x7d") = none ∧
     decodeResponse ("reply: " ++ "\x7b\"a\":1\x7d") = .ok (.obj [("a", .num "1")])) := by
  refine ⟨?_, ?_, rfl, rfl⟩
  · intro R h
    exact h
  · intro R v h
    refine ⟨h, ?_⟩
    unfold decodeResponse
    rw [h]

/-- Witness for the amended C10 at concrete replies. -/
theorem c10_amended_decoder_refinement_witness :
    decodeResponseApp "oops" = none ∧
    decodeResponseApp "[2]" = some (.arr [.num "2"]) ∧
    decodeResponse "[2]" = .ok (.arr [.num "2"]) :=
  ⟨c10_amended_decoder_refinement.1 "oops" rfl,
   (c10_amended_decoder_refinement.2.1 "[2]" (.arr [.num "2"]) rfl).1,
   (c10_amended_decoder_refinement.2.1 "[2]" (.arr [.num "2"]) rfl).2⟩

/-! # Helper lemmas for the fallback-extraction claims -/

/-- A successful first-index search points at a matching character. -/
theorem idxOfFirst_some (pred : Char → Bool) (s : List Char) (i : Nat)
    (h : idxOfFirst pred s = some i) :
    ∃ c, s[i]? = some c ∧ pred c = true := by
  induction s generalizing i with
  | nil => simp [idxOfFirst] at h
  | cons a rest ih =>
    rw [idxOfFirst] at h
    by_cases hp : pred a
    · rw [if_pos hp] at h
      cases h
      exact ⟨a, List.getElem?_cons_zero, hp⟩
    · rw [if_neg hp] at h
      cases hrest : idxOfFirst pred rest with
      | none => rw [hrest] at h; simp at h
      | some i₀ =>
        rw [hrest] at h
        simp only [Option.map_some'] at h
        cases h
        obtain ⟨c, hc, hpc⟩ := ih i₀ hrest
        refine ⟨c, ?_, hpc⟩
        rw [List.getElem?_cons_succ]
        exact hc

/-- A successful last-index search points at a matching character. -/
theorem idxOfLast_some (pred : Char → Bool) (s : List Char) (j : Nat)
    (h : idxOfLast pred s = some j) :
    ∃ c, s[j]? = some c ∧ pred c = true := by
  unfold idxOfLast at h
  cases hrev : idxOfFirst pred s.reverse with
  | none => rw [hrev] at h; simp at h
  | some i₀ =>
    rw [hrev] at h
    simp only [Option.map_some'] at h
    cases h
    obtain ⟨c, hc, hpc⟩ := idxOfFirst_some pred s.reverse i₀ hrev
    have hi : i₀ < s.length := by
      have h₁ := List.getElem?_eq_some.mp hc
      obtain ⟨hlt, _⟩ := h₁
      rw [List.length_reverse] at hlt
      exact hlt
    refine ⟨c, ?_, hpc⟩
    rw [← List.getElem?_reverse hi]
    exact hc

/-- When no left brace has a right brace after it, no index pair exhibits
such a pair. -/
theorem hasBracePair_false_no_pair (s : List Char) (h : hasBracePair s = false) :
    ∀ i j : Nat, i < j → s[i]? = some lbraceChar → s[j]? = some rbraceChar → False := by
  induction s with
  | nil => intro i j _ hi _; simp at hi
  | cons a rest ih =>
    rw [hasBracePair] at h
    rw [Bool.or_eq_false_iff] at h
    obtain ⟨hhead, htail⟩ := h
    intro i j hij hi hj
    cases i with
    | zero =>
      have ha : a = lbraceChar := by simpa using hi
      cases j with
      | zero => exact absurd hij (lt_irrefl _)
      | succ j₀ =>
        have hj' : rest[j₀]? = some rbraceChar := by simpa using hj
        have hmem : rbraceChar ∈ rest := List.getElem?_mem hj'
        have hcont : rest.contains rbraceChar = true := by
          simpa [List.elem_iff] using hmem
        rw [ha, hcont] at hhead
        simp at hhead
    | succ i₀ =>
      cases j with
      | zero => exact absurd hij (by omega)
      | succ j₀ =>
        exact ih htail i₀ j₀ (by omega) (by simpa using hi) (by simpa using hj)

/-- Without a brace pair the fallback regex finds no match. -/
theorem no_pair_extract_none (s : List Char) (h : hasBracePair s = false) :
    extractBraced s = none := by
  unfold extractBraced
  cases hf : idxOfFirst (fun c => c == lbraceChar) s with
  | none => rfl
  | some i =>
    cases hl : idxOfLast (fun c => c == rbraceChar) s with
    | none => rfl
    | some j =>
      by_cases hij : i < j
      · exfalso
        obtain ⟨c₁, hc₁, hp₁⟩ := idxOfFirst_some _ s i hf
        obtain ⟨c₂, hc₂, hp₂⟩ := idxOfLast_some _ s j hl
        have e₁ : c₁ = lbraceChar := by simpa using hp₁
        have e₂ : c₂ = rbraceChar := by simpa using hp₂
        exact hasBracePair_false_no_pair s h i j hij (e₁ ▸ hc₁) (e₂ ▸ hc₂)
      · show (if i < j then some ((s.drop i).take (j - i + 1)) else none) = none
        rw [if_neg hij]

/-- Claim C3 as amended: a reply that is not itself valid JSON and contains
no brace-delimited substring fails with exactly the "no parseable plan
found" error, and every successful decode is the parse of the whole text or
of the extracted brace substring (never a partial structure). -/
theorem c3_amended_no_brace_failure :
    ∀ R : String,
      (jsonParse R = none → hasBracePair R.data = false →
        decodeResponse R = .errNoJson) ∧
      (∀ v : Json, decodeResponse R = .ok v →
        jsonParse R = some v ∨
        ∃ sub, extractBraced R.data = some sub ∧ jsonParse (String.mk sub) = some v) := by
  intro R
  constructor
  · intro hp hb
    unfold decodeResponse
    rw [hp, no_pair_extract_none R.data hb]
  · intro v hv
    unfold decodeResponse at hv
    cases hp : jsonParse R with
    | some w =>
      rw [hp] at hv
      cases hv
      exact Or.inl rfl
    | none =>
      rw [hp] at hv
      cases he : extractBraced R.data with
      | none =>
        rw [he] at hv
        cases hv
      | some sub =>
        rw [he] at hv
        have hv₂ : (match jsonParse (String.mk sub) with
            | some w => DecodeResult.ok w
            | none => DecodeResult.errBadJson) = .ok v := hv
        cases hs : jsonParse (String.mk sub) with
        | none =>
          rw [hs] at hv₂
          cases hv₂
        | some w =>
          rw [hs] at hv₂
          cases hv₂
          exact Or.inr ⟨sub, rfl, hs⟩

/-- Witness for the amended C3 at the concrete brace-free reply `"hello"`. -/
theorem c3_amended_no_brace_failure_witness :
    decodeResponse "hello" = .errNoJson :=
  (c3_amended_no_brace_failure "hello").1 rfl rfl

/-- First-index search skips a prefix with no matching character. -/
theorem idxOfFirst_append_nomatch (pred : Char → Bool) (a b : List Char)
    (ha : ∀ c ∈ a, pred c = false) :
    idxOfFirst pred (a ++ b) = (idxOfFirst pred b).map (· + a.length) := by
  induction a with
  | nil =>
    rw [List.nil_append]
    cases hb : idxOfFirst pred b with
    | none => rfl
    | some i => simp
  | cons x rest ih =>
    have hx : pred x = false := ha x (List.mem_cons_self x rest)
    rw [List.cons_append, idxOfFirst, hx]
    rw [if_neg (by simp)]
    rw [ih (fun c hc => ha c (List.mem_cons_of_mem x hc))]
    cases idxOfFirst pred b with
    | none => rfl
    | some i =>
      simp only [Option.map_some', List.length_cons]
      rfl

/-- The greedy brace capture on a text whose prefix has no left brace and
whose suffix has no right brace, around an explicit brace-delimited
document, returns exactly that document. -/
theorem extractBraced_clean_sides (p q mid : List Char)
    (hp : ∀ c ∈ p, (c == lbraceChar) = false)
    (hq : ∀ c ∈ q, (c == rbraceChar) = false) :
    extractBraced (p ++ (lbraceChar :: (mid ++ [rbraceChar])) ++ q)
      = some (lbraceChar :: (mid ++ [rbraceChar])) := by
  have hfirst : idxOfFirst (fun c => c == lbraceChar)
      (p ++ (lbraceChar :: (mid ++ [rbraceChar])) ++ q) = some p.length := by
    rw [List.append_assoc]
    rw [idxOfFirst_append_nomatch _ p _ hp]
    rw [List.cons_append, idxOfFirst]
    rw [if_pos (by simp)]
    simp
  have hlast : idxOfLast (fun c => c == rbraceChar)
      (p ++ (lbraceChar :: (mid ++ [rbraceChar])) ++ q)
      = some (p.length + mid.length + 1) := by
    unfold idxOfLast
    have hrev : ((p ++ (lbraceChar :: (mid ++ [rbraceChar]))) ++ q).reverse
        = q.reverse ++ ((rbraceChar :: (mid.reverse ++ [lbraceChar])) ++ p.reverse) := by
      rw [List.reverse_append, List.reverse_append]
      congr 2
      rw [List.reverse_cons, List.reverse_append]
      simp
    rw [hrev]
    rw [idxOfFirst_append_nomatch _ q.reverse _
        (fun c hc => hq c (List.mem_reverse.mp hc))]
    rw [List.cons_append, idxOfFirst]
    rw [if_pos (by simp)]
    simp only [Option.map_some']
    congr 1
    simp only [List.length_append, List.length_reverse, List.length_cons,
      List.length_nil]
    omega
  unfold extractBraced
  rw [hfirst, hlast]
  show (if p.length < p.length + mid.length + 1 then
      some ((((p ++ (lbraceChar :: (mid ++ [rbraceChar]))) ++ q).drop p.length).take
        (p.length + mid.length + 1 - p.length + 1))
    else none) = some (lbraceChar :: (mid ++ [rbraceChar]))
  rw [if_pos (by omega)]
  congr 1
  have harith : p.length + mid.length + 1 - p.length + 1 = mid.length + 2 := by omega
  rw [harith]
  rw [List.append_assoc, List.drop_left]
  have hdlen : (lbraceChar :: (mid ++ [rbraceChar])).length = mid.length + 2 := by
    simp
  rw [← hdlen, List.take_left]

/-- Claim C1 as amended: for a reply of the form `prefix + "{" + body + "}" +
suffix` where the inner braced document is valid JSON, the prefix contains no
brace characters, the suffix contains no brace characters, and the direct
whole-text parse fails, the fallback branch recovers the inner document and
returns its parse. -/
theorem c1_amended_fallback_recovery (pre body suf : String) (v : Json)
    (hpre : noBraces pre = true) (hsuf : noBraces suf = true)
    (hdoc : jsonParse ("\x7b" ++ body ++ "\x7d") = some v)
    (hfull : jsonParse (pre ++ ("\x7b" ++ body ++ "\x7d") ++ suf) = none) :
    decodeResponse (pre ++ ("\x7b" ++ body ++ "\x7d") ++ suf) = .ok v := by
  have hpre' : ∀ c ∈ pre.data, (c == lbraceChar) = false := by
    intro c hc
    unfold noBraces at hpre
    have h₀ := List.all_eq_true.mp hpre c hc
    have h₁ := (Bool.and_eq_true _ _).mp h₀
    simpa using h₁.1
  have hsuf' : ∀ c ∈ suf.data, (c == rbraceChar) = false := by
    intro c hc
    unfold noBraces at hsuf
    have h₀ := List.all_eq_true.mp hsuf c hc
    have h₁ := (Bool.and_eq_true _ _).mp h₀
    simpa using h₁.2
  have hdata : (pre ++ ("\x7b" ++ body ++ "\x7d") ++ suf).data
      = pre.data ++ (lbraceChar :: (body.data ++ [rbraceChar])) ++ suf.data := by
    simp [String.data_append, lbraceChar, rbraceChar]
  have hdoc' : ("\x7b" ++ body ++ "\x7d").data
      = lbraceChar :: (body.data ++ [rbraceChar]) := by
    simp [String.data_append, lbraceChar, rbraceChar]
  have hmk : String.mk (lbraceChar :: (body.data ++ [rbraceChar]))
      = "\x7b" ++ body ++ "\x7d" := by
    rw [← hdoc']
  unfold decodeResponse
  rw [hfull, hdata,
    extractBraced_clean_sides pre.data suf.data body.data hpre' hsuf']
  show (match jsonParse (String.mk (lbraceChar :: (body.data ++ [rbraceChar]))) with
    | some w => DecodeResult.ok w
    | none => DecodeResult.errBadJson) = DecodeResult.ok v
  rw [hmk, hdoc]

/-- Witness for the amended C1 at a concrete prose-wrapped reply. -/
theorem c1_amended_fallback_recovery_witness :
    decodeResponse ("Reply: " ++ ("\x7b" ++ "\"a\":1" ++ "\x7d") ++ " end")
      = .ok (.obj [("a", .num "1")]) :=
  c1_amended_fallback_recovery "Reply: " "\"a\":1" " end" (.obj [("a", .num "1")])
    rfl rfl rfl rfl

/-! # Helper lemmas for the export claim -/

/-- The segment-containment check agrees with list-infix. -/
theorem containsSeg_eq_true_iff (n : List Char) :
    ∀ h : List Char, containsSeg n h = true ↔ n <:+: h := by
  intro h
  induction h with
  | nil =>
    rw [containsSeg]
    simp
  | cons a t ih =>
    rw [containsSeg]
    by_cases hp : n.isPrefixOf (a :: t) = true
    · rw [if_pos hp]
      constructor
      · intro _
        exact (List.isPrefixOf_iff_prefix.mp hp).isInfix
      · intro _
        rfl
    · rw [if_neg hp]
      rw [ih, List.infix_cons_iff]
      constructor
      · exact Or.inr
      · intro hor
        rcases hor with hpre | hinf
        · exact absurd (List.isPrefixOf_iff_prefix.mpr hpre) hp
        · exact hinf

/-- Every element of the joined list occurs inside the joined string. -/
theorem mem_joinSep_occurs (x : String) (l : List String) (hx : x ∈ l) :
    x.data <:+: (App1.joinSep "\n" l).data := by
  induction l with
  | nil => simp at hx
  | cons y rest ih =>
    cases rest with
    | nil =>
      have hxy : x = y := by simpa using hx
      subst hxy
      exact List.infix_rfl
    | cons z rest₂ =>
      rw [App1.joinSep]
      rcases List.mem_cons.mp hx with heq | hmem
      · subst heq
        rw [String.data_append, String.data_append]
        rw [List.append_assoc]
        exact (List.prefix_append x.data _).isInfix
      · refine (ih hmem).trans ?_
        rw [String.data_append, String.data_append]
        rw [List.append_assoc]
        exact ((List.suffix_append _ _).trans (List.suffix_append _ _)).isInfix

/-- An object that binds any key is a nonempty dict, hence truthy. -/
theorem lookupField_some_truthy (fs : List (String × Json)) (k : String) (v : Json)
    (h : lookupField fs k = some v) : Json.truthy (.obj fs) = true := by
  cases fs with
  | nil => rw [lookupField] at h; cases h
  | cons x rest => rfl

/-- A category pass that succeeds emits the bullet line of every question
stored under a listed category key. -/
theorem collectCats_contains (fs : List (String × Json)) (cats : List (String × String))
    (out : List String) (k h : String) (l : List Json) (q : String)
    (hok : App1.collectCats (.obj fs) cats = .ok out)
    (hmem : (k, h) ∈ cats) (hlk : lookupField fs k = some (.arr l))
    (hq : Json.str q ∈ l) : ("• " ++ q) ∈ out := by
  induction cats generalizing out with
  | nil => simp at hmem
  | cons kh rest ih =>
    obtain ⟨k₁, h₁⟩ := kh
    rw [App1.collectCats] at hok
    have hdg : Json.dictGet (.obj fs) k₁ Json.null
        = .ok ((lookupField fs k₁).getD .null) := rfl
    rw [hdg] at hok
    dsimp only at hok
    rcases List.mem_cons.mp hmem with heq | hrest
    · obtain ⟨hk₁, hh₁⟩ := Prod.mk.inj heq
      subst hk₁
      subst hh₁
      rw [hlk, Option.getD_some] at hok
      have hne : l ≠ [] := by
        intro hnil
        rw [hnil] at hq
        simp at hq
      have htr : (Json.arr l).truthy = true := by
        rw [Json.truthy]
        simpa using hne
      rw [if_pos htr] at hok
      have hgi : Json.getItem (.obj fs) k = .ok (.arr l) := by
        rw [Json.getItem, hlk]
      rw [hgi] at hok
      dsimp only at hok
      have hpi : Json.pyIter (Json.arr l) = .ok l := rfl
      rw [hpi] at hok
      dsimp only at hok
      cases hrest₂ : App1.collectCats (.obj fs) rest with
      | error e =>
        rw [hrest₂] at hok
        cases hok
      | ok tail =>
        rw [hrest₂] at hok
        dsimp only at hok
        cases hok
        apply List.mem_append_left
        apply List.mem_cons_of_mem
        have hb : "• " ++ q = (fun q₀ : Json => "• " ++ q₀.pyStr) (Json.str q) := rfl
        rw [hb]
        exact List.mem_map_of_mem _ hq
    · by_cases htr : ((lookupField fs k₁).getD Json.null).truthy = true
      · rw [if_pos htr] at hok
        cases hgi : Json.getItem (.obj fs) k₁ with
        | error e =>
          rw [hgi] at hok
          cases hok
        | ok w =>
          rw [hgi] at hok
          dsimp only at hok
          cases hpi : Json.pyIter w with
          | error e =>
            rw [hpi] at hok
            cases hok
          | ok xs =>
            rw [hpi] at hok
            dsimp only at hok
            cases hrest₂ : App1.collectCats (.obj fs) rest with
            | error e =>
              rw [hrest₂] at hok
              cases hok
            | ok tail =>
              rw [hrest₂] at hok
              dsimp only at hok
              cases hok
              exact List.mem_append_right _ (ih tail hrest₂ hrest)
      · rw [if_neg htr] at hok
        cases hrest₂ : App1.collectCats (.obj fs) rest with
        | error e =>
          rw [hrest₂] at hok
          cases hok
        | ok tail =>
          rw [hrest₂] at hok
          dsimp only at hok
          cases hok
          exact ih _ hrest₂ hrest

/-- A successful value lookup forces the value to be an object binding. -/
theorem lookup_obj (j : Json) (k : String) (v : Json) (h : j.lookup k = some v) :
    ∃ fs, j = .obj fs ∧ lookupField fs k = some v := by
  cases j with
  | obj fs => exact ⟨fs, rfl, h⟩
  | null => simp [Json.lookup] at h
  | bool b => simp [Json.lookup] at h
  | num m => simp [Json.lookup] at h
  | str s => simp [Json.lookup] at h
  | arr xs => simp [Json.lookup] at h

/-- The infix step from a question to its bullet line. -/
theorem q_infix_bullet (q : String) : q.data <:+: ("• " ++ q).data := by
  rw [String.data_append]
  exact (List.suffix_append _ _).isInfix

/-- Claim C8 as amended: the exported document contains every question that
the plan stores under one of the recognized per-role category keys (the
category tables written out in the export code); the export never drops a
question from a recognized category. -/
theorem c8_amended_export_contains :
    ∀ (wq dq vq : Json) (text : String) (k h : String) (l : List Json) (q : String),
      App1.exportAllQuestions wq dq vq = .ok text →
      (((k, h) ∈ App1.exportWitnessCats ∧ wq.lookup k = some (.arr l)) ∨
       ((k, h) ∈ App1.exportDriverCats ∧ dq.lookup k = some (.arr l)) ∨
       ((k, h) ∈ App1.exportVictimCats ∧ vq.lookup k = some (.arr l))) →
      Json.str q ∈ l →
      containsSeg q.data text.data = true := by
  intro wq dq vq text k h l q hok hsrc hq
  unfold App1.exportAllQuestions at hok
  cases ha : App1.exportGroup wq "\n=== ВОПРОСЫ ДЛЯ СВИДЕТЕЛЕЙ ===\n"
      App1.exportWitnessCats with
  | error e => rw [ha] at hok; cases hok
  | ok a =>
    rw [ha] at hok
    dsimp only at hok
    cases hb : App1.exportGroup dq "\n=== ВОПРОСЫ ДЛЯ ВОДИТЕЛЯ ===\n"
        App1.exportDriverCats with
    | error e => rw [hb] at hok; cases hok
    | ok b =>
      rw [hb] at hok
      dsimp only at hok
      cases hc : App1.exportGroup vq "\n=== ВОПРОСЫ ДЛЯ ПОТЕРПЕВШЕГО ===\n"
          App1.exportVictimCats with
      | error e => rw [hc] at hok; cases hok
      | ok c =>
        rw [hc] at hok
        dsimp only at hok
        cases hok
        rw [containsSeg_eq_true_iff]
        rcases hsrc with ⟨hmem, hlk⟩ | ⟨hmem, hlk⟩ | ⟨hmem, hlk⟩
        · obtain ⟨fs, rfl, hlf⟩ := lookup_obj wq k (.arr l) hlk
          have htr := lookupField_some_truthy fs k _ hlf
          rw [App1.exportGroup, if_pos htr] at ha
          cases hcc : App1.collectCats (.obj fs) App1.exportWitnessCats with
          | error e => rw [hcc] at ha; cases ha
          | ok qs =>
            rw [hcc] at ha
            dsimp only at ha
            cases ha
            have hbul : ("• " ++ q) ∈ qs :=
              collectCats_contains fs _ qs k h l q hcc hmem hlf hq
            have hline : ("• " ++ q) ∈
                ("\n=== ВОПРОСЫ ДЛЯ СВИДЕТЕЛЕЙ ===\n" :: qs) ++ b ++ c :=
              List.mem_append_left _
                (List.mem_append_left _ (List.mem_cons_of_mem _ hbul))
            exact (q_infix_bullet q).trans (mem_joinSep_occurs _ _ hline)
        · obtain ⟨fs, rfl, hlf⟩ := lookup_obj dq k (.arr l) hlk
          have htr := lookupField_some_truthy fs k _ hlf
          rw [App1.exportGroup, if_pos htr] at hb
          cases hcc : App1.collectCats (.obj fs) App1.exportDriverCats with
          | error e => rw [hcc] at hb; cases hb
          | ok qs =>
            rw [hcc] at hb
            dsimp only at hb
            cases hb
            have hbul : ("• " ++ q) ∈ qs :=
              collectCats_contains fs _ qs k h l q hcc hmem hlf hq
            have hline : ("• " ++ q) ∈
                a ++ ("\n=== ВОПРОСЫ ДЛЯ ВОДИТЕЛЯ ===\n" :: qs) ++ c :=
              List.mem_append_left _
                (List.mem_append_right _ (List.mem_cons_of_mem _ hbul))
            exact (q_infix_bullet q).trans (mem_joinSep_occurs _ _ hline)
        · obtain ⟨fs, rfl, hlf⟩ := lookup_obj vq k (.arr l) hlk
          have htr := lookupField_some_truthy fs k _ hlf
          rw [App1.exportGroup, if_pos htr] at hc
          cases hcc : App1.collectCats (.obj fs) App1.exportVictimCats with
          | error e => rw [hcc] at hc; cases hc
          | ok qs =>
            rw [hcc] at hc
            dsimp only at hc
            cases hc
            have hbul : ("• " ++ q) ∈ qs :=
              collectCats_contains fs _ qs k h l q hcc hmem hlf hq
            have hline : ("• " ++ q) ∈
                a ++ b ++ ("\n=== ВОПРОСЫ ДЛЯ ПОТЕРПЕВШЕГО ===\n" :: qs) :=
              List.mem_append_right _ (List.mem_cons_of_mem _ hbul)
            exact (q_infix_bullet q).trans (mem_joinSep_occurs _ _ hline)

/-- Witness for the amended C8: a plan with one witness question under the
recognized `general` category; the exported text contains the question. -/
theorem c8_amended_export_contains_witness :
    containsSeg "Q1".data
      "\n=== ВОПРОСЫ ДЛЯ СВИДЕТЕЛЕЙ ===\n\n\nОбщие вопросы:\n• Q1".data = true :=
  c8_amended_export_contains (.obj [("general", .arr [.str "Q1"])]) (.obj []) (.obj [])
    "\n=== ВОПРОСЫ ДЛЯ СВИДЕТЕЛЕЙ ===\n\n\nОбщие вопросы:\n• Q1"
    "general" "\nОбщие вопросы:" [.str "Q1"] "Q1" rfl
    (Or.inl ⟨by simp [App1.exportWitnessCats], rfl⟩) (by simp)

/-- Counterexample to claim C8 as stated: a plan whose witness group stores
its question under the unrecognized category `misc`; the export emits only
the section banner and omits the question. -/
theorem c8_counterexample_unknown_category :
    App1.exportAllQuestions (.obj [("misc", .arr [.str "q1"])]) (.obj []) (.obj [])
      = .ok "\n=== ВОПРОСЫ ДЛЯ СВИДЕТЕЛЕЙ ===\n" ∧
    containsSeg "q1".data "\n=== ВОПРОСЫ ДЛЯ СВИДЕТЕЛЕЙ ===\n".data = false :=
  ⟨rfl, rfl⟩
